import Mathlib

/-!
# Verification of the soundscore-api real-time messaging core

Shallow embedding of the in-process WebSocket connection manager
(`app/websockets/manager.py`), the group-chat and direct-message frame
handlers (`app/websockets/group_chat.py`, `app/websockets/dm_chat.py`) and
the SSE notification fan-out (`app/services/notification_service.py`).

Python dictionaries are modelled as insertion-ordered association lists
(`Dict`), Python sets of ints as duplicate-free lists, and a WebSocket
transport as a `Chan` carrying an id and a broken/working flag.  Sending on
a broken channel raises (modelled as `Except`); the manager catches and
swallows such errors, which is why its operations return a plain list of
successful deliveries.  Outbound effects of a handler step are captured as
an explicit trace: the list of `(channel, payload)` deliveries and the list
of persistence calls made.
-/

/-- JSON values, the payload shape exchanged over the wire and the result
type of `json.loads` on an inbound frame. -/
inductive Json where
  | null : Json
  | bool (b : Bool) : Json
  | num (n : Int) : Json
  | str (s : String) : Json
  | arr (elems : List Json) : Json
  | obj (fields : List (String × Json)) : Json
deriving Repr

/-- Python truthiness of a JSON value (`if not x` tests). -/
def Json.truthy : Json → Bool
  | .null => false
  | .bool b => b
  | .num n => n != 0
  | .str s => s != ""
  | .arr elems => !elems.isEmpty
  | .obj fields => !fields.isEmpty

/-- Python `==` between a JSON value and a string literal: true exactly when
the value is that string (a non-string never equals a `str`). -/
def Json.eqStr : Json → String → Bool
  | .str s, t => s == t
  | _, _ => false

/-- Errors a handler body can raise: `AttributeError` from calling `.get`
or `.strip` or `.startswith` on a value that lacks the method, or any
other uncaught exception. -/
inductive PyError where
  | attributeError : PyError
  | other : PyError
deriving Repr, DecidableEq

/-- `d.get(k, default)` on a Python value: succeeds only when the value is
a dict (JSON object), returning the first binding of `k` or the default;
on any other value it raises `AttributeError`. -/
def Json.pyGet (j : Json) (k : String) (default : Json) : Except PyError Json :=
  match j with
  | .obj fields => .ok ((fields.lookup k).getD default)
  | _ => .error .attributeError

/-- `s.strip()` on a string: drop whitespace from both ends (an
executable character-level model of Python's strip). -/
def pyStripStr (s : String) : String :=
  ⟨((s.data.dropWhile Char.isWhitespace).reverse.dropWhile
      Char.isWhitespace).reverse⟩

/-- `x.strip()` on a Python value: succeeds only on a string; on any
other value it raises `AttributeError`. -/
def Json.pyStrip (j : Json) : Except PyError String :=
  match j with
  | .str s => .ok (pyStripStr s)
  | _ => .error .attributeError

/-- A Python dict as an insertion-ordered association list. -/
abbrev Dict (α β : Type) := List (α × β)

namespace Dict

variable {α β : Type} [DecidableEq α]

/-- `k in d` / `d[k]` lookup: first binding of the key, if any. -/
def get? : Dict α β → α → Option β
  | [], _ => none
  | p :: rest, k => if p.1 = k then some p.2 else get? rest k

/-- `d[k] = v`: overwrite the binding in place if the key is present,
otherwise append it (Python dicts keep insertion order). -/
def insert : Dict α β → α → β → Dict α β
  | [], k, v => [(k, v)]
  | p :: rest, k, v => if p.1 = k then (k, v) :: rest else p :: insert rest k v

/-- `d.pop(k, None)` / `del d[k]`: remove the binding for the key.  A real
dict holds each key at most once; on such lists filtering out the key is
exactly Python's removal. -/
def pop (d : Dict α β) (k : α) : Dict α β :=
  d.filter (fun p => p.1 ≠ k)

/-- `list(d.keys())`. -/
def keys (d : Dict α β) : List α :=
  d.map Prod.fst

/-- Each key bound at most once — automatically true of a Python dict,
an invariant of the association-list model. -/
def NodupKeys (d : Dict α β) : Prop :=
  d.keys.Nodup

instance (d : Dict α β) : Decidable d.NodupKeys :=
  inferInstanceAs (Decidable d.keys.Nodup)

end Dict

/-- A Python `set` of ints: `s.add(x)`. -/
def IntSet.add (s : List Int) (x : Int) : List Int :=
  if x ∈ s then s else s ++ [x]

/-- A Python `set` of ints: `s.discard(x)`. -/
def IntSet.discard (s : List Int) (x : Int) : List Int :=
  s.filter (fun y => y ≠ x)

/-- One live WebSocket transport: an identity plus whether the underlying
socket is broken (send raises) or working. -/
structure Chan where
  id : Int
  broken : Bool
deriving Repr, DecidableEq

/-- Raised by `websocket.send_text` on a closed or broken socket. -/
inductive SendError where
  | closed : SendError
deriving Repr, DecidableEq

/-- `await websocket.send_text(...)`: fails exactly on a broken channel. -/
def Chan.send_text (ws : Chan) : Except SendError Unit :=
  if ws.broken then .error .closed else .ok ()

/-- A successful delivery: this channel received this payload. -/
abbrev Delivery := Chan × Json

/-- `try: await ws.send_text(msg) except: pass` — the delivery trace of one
guarded send: one delivery on success, none when the send raised (the
exception is swallowed). -/
def trySend (ws : Chan) (msg : Json) : List Delivery :=
  match ws.send_text with
  | .ok _ => [(ws, msg)]
  | .error _ => []

/-- `if exclude_user_id and user_id == exclude_user_id` — NB Python
truthiness: `None` and `0` are both falsy, so user id 0 is never
excluded. -/
def shouldExclude (exclude_user_id : Option Int) (user_id : Int) : Bool :=
  match exclude_user_id with
  | none => false
  | some e => e != 0 && user_id == e

/-- The body of the broadcast loop: for each registered member of a room
in dict order, skip the (truthy) excluded user, otherwise attempt the
guarded send.  The result is the trace of successful deliveries. -/
def roomSends (conns : Dict Int Chan) (message : Json)
    (exclude_user_id : Option Int) : List Delivery :=
  conns.flatMap (fun p =>
    if shouldExclude exclude_user_id p.1 then [] else trySend p.2 message)

/-- `ConnectionManager` (`app/websockets/manager.py`): per-room registry of
connected users and their channels, plus the reverse user → rooms index. -/
structure ConnectionManager where
  /-- `self.active_connections : Dict[int, Dict[int, WebSocket]]`. -/
  active_connections : Dict Int (Dict Int Chan)
  /-- `self.user_groups : Dict[int, Set[int]]`. -/
  user_groups : Dict Int (List Int)
deriving Repr

namespace ConnectionManager

/-- `ConnectionManager()`. -/
def empty : ConnectionManager :=
  ⟨[], []⟩

/-- `manager.connect(websocket, group_id, user_id)`: insert or overwrite
the `(group_id, user_id) → websocket` mapping and record the group in the
user's room set. -/
def connect (m : ConnectionManager) (websocket : Chan) (group_id user_id : Int) :
    ConnectionManager :=
  let conns := (m.active_connections.get? group_id).getD []
  let ac := m.active_connections.insert group_id (conns.insert user_id websocket)
  let groups := (m.user_groups.get? user_id).getD []
  let ug := m.user_groups.insert user_id (IntSet.add groups group_id)
  ⟨ac, ug⟩

/-- First block of `manager.disconnect`: drop the pair from the forward
index, pruning the room entry when it empties. -/
def disconnectRooms (ac : Dict Int (Dict Int Chan)) (group_id user_id : Int) :
    Dict Int (Dict Int Chan) :=
  match ac.get? group_id with
  | none => ac
  | some conns =>
    let conns := conns.pop user_id
    if conns.isEmpty then ac.pop group_id
    else ac.insert group_id conns

/-- Second block of `manager.disconnect`: mirror the removal in the
reverse user → rooms index, pruning the user entry when it empties. -/
def disconnectUserGroups (ug : Dict Int (List Int)) (group_id user_id : Int) :
    Dict Int (List Int) :=
  match ug.get? user_id with
  | none => ug
  | some groups =>
    let groups := IntSet.discard groups group_id
    if groups.isEmpty then ug.pop user_id
    else ug.insert user_id groups

/-- `manager.disconnect(group_id, user_id)`: the two blocks above, on the
two independent indices. -/
def disconnect (m : ConnectionManager) (group_id user_id : Int) : ConnectionManager :=
  ⟨disconnectRooms m.active_connections group_id user_id,
   disconnectUserGroups m.user_groups group_id user_id⟩

/-- `manager.send_personal_message(message, websocket)`: one guarded send
whose failure is swallowed. -/
def send_personal_message (message : Json) (websocket : Chan) : List Delivery :=
  trySend websocket message

/-- `manager.broadcast_to_group(group_id, message, exclude_user_id)`: send
serialized payload to every channel registered in the room, skipping the
(truthy) excluded user; every per-recipient failure is swallowed, so the
result is the trace of successful deliveries and no error escapes. -/
def broadcast_to_group (m : ConnectionManager) (group_id : Int) (message : Json)
    (exclude_user_id : Option Int) : List Delivery :=
  match m.active_connections.get? group_id with
  | none => []
  | some conns => roomSends conns message exclude_user_id

/-- `manager.get_online_users(group_id)`. -/
def get_online_users (m : ConnectionManager) (group_id : Int) : List Int :=
  match m.active_connections.get? group_id with
  | none => []
  | some conns => conns.keys

/-- `manager.is_user_online(group_id, user_id)`. -/
def is_user_online (m : ConnectionManager) (group_id user_id : Int) : Bool :=
  match m.active_connections.get? group_id with
  | none => false
  | some conns => conns.any (fun p => p.1 = user_id)

/-- `manager.get_connection_count(group_id)`. -/
def get_connection_count (m : ConnectionManager) (group_id : Int) : Nat :=
  match m.active_connections.get? group_id with
  | none => 0
  | some conns => conns.length

/-- At most one registry entry per `(user, room)` pair: room keys are
duplicate-free and so are the user keys of every room's table. -/
def AtMostOne (m : ConnectionManager) : Prop :=
  m.active_connections.NodupKeys ∧
    ∀ p ∈ m.active_connections, Dict.NodupKeys p.2

instance (m : ConnectionManager) : Decidable m.AtMostOne := by
  unfold AtMostOne
  infer_instance

end ConnectionManager

/-! ## Frame handlers (`group_chat.py`, `dm_chat.py`)

One iteration of a handler's receive loop, given the collaborator
responses it would observe (persistence result, fresh user row).  The
inbound frame is the result of `json.loads` on the received text: `none`
models a `json.JSONDecodeError` (the only exception the loop catches);
any other exception escapes the loop and terminates the connection, which
the step models as `crash`. -/

/-- Row returned by `get_fresh_user_data` (resolved profile picture). -/
structure FreshUser where
  username : String
  profile_picture : Json
deriving Repr

/-- `fresh_user["username"] if fresh_user else <fallback>`. -/
def freshUsername (fresh : Option FreshUser) (fallback : String) : String :=
  match fresh with
  | some f => f.username
  | none => fallback

/-- `fresh_user["profile_picture"] if fresh_user else <fallback>`. -/
def freshProfilePicture (fresh : Option FreshUser) (fallback : Json) : Json :=
  match fresh with
  | some f => f.profile_picture
  | none => fallback

/-- What the persistence collaborator returns for a saved chat message. -/
structure SavedMessage where
  id : Int
  created_at_iso : String
deriving Repr

/-- A call to `save_message(group_id, user_id, content)`. -/
structure GroupSave where
  group_id : Int
  user_id : Int
  content : String
deriving Repr, DecidableEq

/-- A call to `save_dm_message(conversation_id, sender_id, content, image_url)`. -/
structure DmSave where
  conversation_id : Int
  sender_id : Int
  content : String
  image_url : Json
deriving Repr

/-- Outcome of one receive-loop iteration: either the loop continues
(`next`, with the trace of deliveries sent and persistence calls made
during the iteration), or an uncaught exception escapes and the
connection terminates (`crash`). -/
inductive StepResult (σ : Type) where
  | next (deliveries : List Delivery) (persisted : List σ)
  | crash (e : PyError)
deriving Repr

/-- Deliveries sent during the iteration (none when it crashed). -/
def StepResult.deliveries {σ : Type} : StepResult σ → List Delivery
  | .next ds _ => ds
  | .crash _ => []

/-- Persistence calls made during the iteration. -/
def StepResult.persisted {σ : Type} : StepResult σ → List σ
  | .next _ ps => ps
  | .crash _ => []

/-- How many of the traced deliveries reached this channel. -/
def deliveredCount (ds : List Delivery) (c : Chan) : Nat :=
  (ds.filter (fun d => d.1 = c)).length

/-- One iteration of the group-chat receive loop
(`group_chat.py` lines 194–248). -/
def groupFrameStep (m : ConnectionManager) (group_id : Int)
    (user_id : Int) (user_username : String) (user_profile_picture : Json)
    (websocket : Chan)
    (fresh_user : Option FreshUser) (saved_message : SavedMessage)
    (frame : Option Json) : StepResult GroupSave :=
  match frame with
  | none => .next [] []
  | some message_data =>
    match message_data.pyGet "type" (.str "message") with
    | .error e => .crash e
    | .ok message_type =>
      if message_type.eqStr "message" then
        match message_data.pyGet "content" (.str "") with
        | .error e => .crash e
        | .ok raw =>
          match raw.pyStrip with
          | .error e => .crash e
          | .ok content =>
            if content == "" then .next [] []
            else
              let username := freshUsername fresh_user user_username
              let profile_picture :=
                freshProfilePicture fresh_user user_profile_picture
              let payload : Json := .obj [
                ("type", .str "message"),
                ("content", .str content),
                ("user_id", .num user_id),
                ("username", .str username),
                ("profile_picture", profile_picture),
                ("message_id", .num saved_message.id),
                ("timestamp", .str saved_message.created_at_iso)]
              .next (m.broadcast_to_group group_id payload none)
                [⟨group_id, user_id, content⟩]
      else if message_type.eqStr "typing" then
        .next (m.broadcast_to_group group_id
          (.obj [("type", .str "typing"), ("user_id", .num user_id),
                 ("username", .str user_username)])
          (some user_id)) []
      else if message_type.eqStr "ping" then
        .next (ConnectionManager.send_personal_message
          (.obj [("type", .str "pong")]) websocket) []
      else .next [] []

/-- One iteration of the DM receive loop (`dm_chat.py` lines 151–223).
`signed_url` models `StorageService.get_signed_url`; the `read` branch's
database side effect (`mark_messages_read`) is an external collaborator
call outside the delivery/persistence trace. -/
def dmFrameStep (m : ConnectionManager) (conversation_id : Int)
    (user_id : Int) (user_username : String)
    (websocket : Chan)
    (fresh_user : Option FreshUser) (saved_message : SavedMessage)
    (signed_url : String → String)
    (frame : Option Json) : StepResult DmSave :=
  match frame with
  | none => .next [] []
  | some message_data =>
    match message_data.pyGet "type" (.str "message") with
    | .error e => .crash e
    | .ok message_type =>
      if message_type.eqStr "message" then
        match message_data.pyGet "content" (.str "") with
        | .error e => .crash e
        | .ok raw =>
          match raw.pyStrip with
          | .error e => .crash e
          | .ok content =>
            match message_data.pyGet "image_url" .null with
            | .error e => .crash e
            | .ok image_url =>
              if content == "" && !image_url.truthy then .next [] []
              else
                let resolved? : Except PyError Json :=
                  if image_url.truthy then
                    match image_url with
                    | .str s =>
                      .ok (if s.startsWith "http" then .str s
                           else .str (signed_url s))
                    | _ => .error .attributeError
                  else .ok image_url
                match resolved? with
                | .error e => .crash e
                | .ok resolved_image_url =>
                  let username := freshUsername fresh_user user_username
                  let profile_picture :=
                    freshProfilePicture fresh_user Json.null
                  let payload : Json := .obj [
                    ("type", .str "message"),
                    ("content", .str content),
                    ("image_url", resolved_image_url),
                    ("sender_id", .num user_id),
                    ("username", .str username),
                    ("profile_picture", profile_picture),
                    ("message_id", .num saved_message.id),
                    ("timestamp", .str saved_message.created_at_iso)]
                  .next (m.broadcast_to_group conversation_id payload none)
                    [⟨conversation_id, user_id, content, image_url⟩]
      else if message_type.eqStr "typing" then
        .next (m.broadcast_to_group conversation_id
          (.obj [("type", .str "typing"), ("user_id", .num user_id),
                 ("username", .str user_username)])
          (some user_id)) []
      else if message_type.eqStr "read" then
        .next (m.broadcast_to_group conversation_id
          (.obj [("type", .str "read"), ("user_id", .num user_id)])
          (some user_id)) []
      else if message_type.eqStr "ping" then
        .next (ConnectionManager.send_personal_message
          (.obj [("type", .str "pong")]) websocket) []
      else .next [] []

/-! ## Connection admission (`group_chat.py` 148–164, `dm_chat.py` 129–145) -/

/-- Authenticated identity as the auth collaborator returns it. -/
structure UserRec where
  id : Int
  username : String
deriving Repr

/-- How an admission attempt ends: the transport is closed with a code and
reason, or the connection is accepted and registered. -/
inductive Admission where
  | rejected (code : Int) (reason : String)
  | admitted
deriving Repr, DecidableEq

/-- Admission for the group endpoint: `auth_user` is what
`get_user_from_token` returned (`none` = invalid/expired token),
`is_member` what `verify_group_membership` returned.  Yields the registry
after the attempt and the outcome. -/
def groupAdmit (m : ConnectionManager) (group_id : Int)
    (auth_user : Option UserRec) (is_member : Bool) (websocket : Chan) :
    ConnectionManager × Admission :=
  match auth_user with
  | none => (m, .rejected 4001 "Invalid or expired token")
  | some user =>
    if !is_member then
      (m, .rejected 4003 "Not a member of this group")
    else
      (m.connect websocket group_id user.id, .admitted)

/-- Admission for the DM endpoint (`verify_conversation_participant`). -/
def dmAdmit (m : ConnectionManager) (conversation_id : Int)
    (auth_user : Option UserRec) (is_participant : Bool) (websocket : Chan) :
    ConnectionManager × Admission :=
  match auth_user with
  | none => (m, .rejected 4001 "Invalid or expired token")
  | some user =>
    if !is_participant then
      (m, .rejected 4003 "Not a participant of this conversation")
    else
      (m.connect websocket conversation_id user.id, .admitted)

/-! ## Group join sequence (`group_chat.py` 162–191) -/

/-- User row as rendered into roster/join payloads (resolved picture). -/
structure UserInfo where
  username : String
  profile_picture : Json
deriving Repr

/-- `get_online_users_info(group_id, online_user_ids)`: rows of the users
table whose id is in the list (modelled in table order). -/
def get_online_users_info (users_table : Dict Int UserInfo)
    (online_user_ids : List Int) : List (Int × UserInfo) :=
  if online_user_ids.isEmpty then []
  else users_table.filter (fun p => p.1 ∈ online_user_ids)

/-- Trace of the join sequence: the registry after `connect`, the
`user_joined` deliveries, the roster snapshot ids, and the `online_users`
payload delivery to the joiner. -/
structure JoinResult where
  registry : ConnectionManager
  joined_deliveries : List Delivery
  online_user_ids : List Int
  roster_deliveries : List Delivery
deriving Repr

/-- The admitted group join path: register, broadcast `user_joined` to the
room excluding the joiner, then send the joiner the `online_users`
snapshot taken from the registry (after registration). -/
def groupJoin (m : ConnectionManager) (group_id : Int)
    (user_id : Int) (user_username : String) (user_profile_picture : Json)
    (websocket : Chan) (users_table : Dict Int UserInfo) : JoinResult :=
  let m1 := m.connect websocket group_id user_id
  let joined := m1.broadcast_to_group group_id
    (.obj [("type", .str "user_joined"), ("user_id", .num user_id),
           ("username", .str user_username),
           ("profile_picture", user_profile_picture)])
    (some user_id)
  let online_user_ids := m1.get_online_users group_id
  let infos := get_online_users_info users_table online_user_ids
  let roster_payload : Json := .obj [
    ("type", .str "online_users"),
    ("online_users", .arr (infos.map (fun p =>
      .obj [("user_id", .num p.1), ("username", .str p.2.username),
            ("profile_picture", p.2.profile_picture)])))]
  let roster := ConnectionManager.send_personal_message roster_payload websocket
  ⟨m1, joined, online_user_ids, roster⟩

/-! ## SSE notification fan-out (`notification_service.py` 16–44) -/

/-- One `asyncio.Queue` held by an open SSE connection: an identity (the
Python object identity) and its buffered payloads in FIFO order. -/
structure NQueue where
  qid : Nat
  items : List Json
deriving Repr

/-- The class-level `_sse_connections : dict[int, list[asyncio.Queue]]`. -/
structure NotificationService where
  sse_connections : Dict Int (List NQueue)
deriving Repr

namespace NotificationService

/-- `register_sse_connection(user_id)`: create a fresh empty queue (with a
fresh identity supplied by the caller) and append it to the user's list. -/
def register_sse_connection (s : NotificationService) (user_id : Int)
    (fresh_qid : Nat) : NotificationService × NQueue :=
  let queue : NQueue := ⟨fresh_qid, []⟩
  let qs := (s.sse_connections.get? user_id).getD []
  (⟨s.sse_connections.insert user_id (qs ++ [queue])⟩, queue)

/-- `list.remove` by object identity: drop the first queue with this
identity, or `none` when absent (Python raises `ValueError`). -/
def removeFirstQueue : List NQueue → Nat → Option (List NQueue)
  | [], _ => none
  | q :: rest, qid =>
    if q.qid = qid then some rest
    else (removeFirstQueue rest qid).map (q :: ·)

/-- `unregister_sse_connection(user_id, queue)`: remove exactly that queue;
a `ValueError` from `remove` (already gone) is swallowed, and the per-user
entry is pruned when its last queue is removed. -/
def unregister_sse_connection (s : NotificationService) (user_id : Int)
    (queue : NQueue) : NotificationService :=
  match s.sse_connections.get? user_id with
  | none => s
  | some qs =>
    match removeFirstQueue qs queue.qid with
    | none => s
    | some qs' =>
      if qs'.isEmpty then ⟨s.sse_connections.pop user_id⟩
      else ⟨s.sse_connections.insert user_id qs'⟩

/-- `push_notification(user_id, notification_data)`: enqueue the payload on
every queue currently registered for the user; with no entry for the user
the payload is dropped. -/
def push_notification (s : NotificationService) (user_id : Int)
    (notification_data : Json) : NotificationService :=
  match s.sse_connections.get? user_id with
  | none => s
  | some qs =>
    ⟨s.sse_connections.insert user_id
      (qs.map (fun q => ⟨q.qid, q.items ++ [notification_data]⟩))⟩

end NotificationService

/-! ## Dictionary lemmas -/

namespace Dict

variable {α β : Type} [DecidableEq α]

theorem get?_insert_self (d : Dict α β) (k : α) (v : β) :
    (d.insert k v).get? k = some v := by
  induction d with
  | nil => simp [insert, get?]
  | cons p rest ih =>
    by_cases h : p.1 = k
    · simp [insert, h, get?]
    · simp [insert, h, get?, ih]

theorem insert_insert_same (d : Dict α β) (k : α) (v : β) :
    (d.insert k v).insert k v = d.insert k v := by
  induction d with
  | nil => simp [insert]
  | cons p rest ih =>
    by_cases h : p.1 = k
    · simp [insert, h]
    · simp [insert, h, ih]

theorem get?_pop_self (d : Dict α β) (k : α) : (d.pop k).get? k = none := by
  induction d with
  | nil => rfl
  | cons p rest ih =>
    by_cases h : p.1 = k
    · simpa [pop, List.filter_cons, h] using ih
    · simpa [pop, List.filter_cons, h, get?] using ih

theorem pop_pop_same (d : Dict α β) (k : α) : (d.pop k).pop k = d.pop k := by
  induction d with
  | nil => rfl
  | cons p rest ih =>
    by_cases h : p.1 = k
    · simp [pop, List.filter_cons, h] at ih ⊢
    · simp [pop, List.filter_cons, h] at ih ⊢

theorem mem_of_get? {d : Dict α β} {k : α} {v : β} (h : d.get? k = some v) :
    (k, v) ∈ d := by
  induction d with
  | nil => simp [get?] at h
  | cons p rest ih =>
    obtain ⟨a, b⟩ := p
    by_cases hp : a = k
    · have hb : b = v := by simpa [get?, hp] using h
      simp [hp, hb]
    · exact List.mem_cons_of_mem _ (ih (by simpa [get?, hp] using h))

theorem mem_insert {d : Dict α β} {k : α} {v : β} {p : α × β}
    (h : p ∈ d.insert k v) : p = (k, v) ∨ p ∈ d := by
  induction d with
  | nil => simpa [insert] using h
  | cons q rest ih =>
    by_cases hq : q.1 = k
    · simp [insert, hq] at h
      rcases h with h | h
      · exact Or.inl h
      · exact Or.inr (List.mem_cons_of_mem _ h)
    · simp [insert, hq] at h
      rcases h with h | h
      · exact Or.inr (by simp [h])
      · rcases ih h with h' | h'
        · exact Or.inl h'
        · exact Or.inr (List.mem_cons_of_mem _ h')

theorem keys_insert (d : Dict α β) (k : α) (v : β) :
    (d.insert k v).keys = if k ∈ d.keys then d.keys else d.keys ++ [k] := by
  induction d with
  | nil => simp [insert, keys]
  | cons p rest ih =>
    obtain ⟨a, b⟩ := p
    by_cases h : a = k
    · simp [insert, h, keys]
    · have hne : ¬k = a := fun hk => h hk.symm
      by_cases hm : k ∈ List.map Prod.fst rest
      · simp [insert, keys, h, hne, hm] at ih ⊢
        simp [ih]
      · simp [insert, keys, h, hne, hm] at ih ⊢
        simp [ih]

theorem mem_keys_insert_self (d : Dict α β) (k : α) (v : β) :
    k ∈ (d.insert k v).keys := by
  rw [keys_insert]
  by_cases h : k ∈ d.keys <;> simp [h]

theorem insert_of_not_mem_keys {d : Dict α β} {k : α} (v : β)
    (h : k ∉ d.keys) : d.insert k v = d ++ [(k, v)] := by
  induction d with
  | nil => simp [insert]
  | cons p rest ih =>
    rw [keys, List.map_cons, List.mem_cons] at h
    push_neg at h
    obtain ⟨h1, h2⟩ := h
    have hpk : ¬p.1 = k := fun hk => h1 hk.symm
    simp only [insert, hpk, ite_false, List.cons_append, List.cons.injEq,
      true_and]
    exact ih h2

theorem NodupKeys.insert {d : Dict α β} (h : d.NodupKeys) (k : α) (v : β) :
    (d.insert k v).NodupKeys := by
  unfold NodupKeys at h ⊢
  rw [keys_insert]
  by_cases hm : k ∈ d.keys
  · simpa [hm] using h
  · simpa [hm, List.nodup_append] using h

theorem NodupKeys.pop {d : Dict α β} (h : d.NodupKeys) (k : α) :
    (d.pop k).NodupKeys := by
  unfold NodupKeys at h ⊢
  exact h.sublist ((List.filter_sublist d).map Prod.fst)

theorem mem_of_mem_pop {d : Dict α β} {k : α} {p : α × β}
    (h : p ∈ d.pop k) : p ∈ d :=
  List.mem_of_mem_filter h

theorem filter_key_eq_nil {d : Dict α β} {k : α} (h : k ∉ d.keys) :
    d.filter (fun p => p.1 = k) = [] := by
  induction d with
  | nil => rfl
  | cons p rest ih =>
    rw [keys, List.map_cons, List.mem_cons] at h
    push_neg at h
    obtain ⟨h1, h2⟩ := h
    have hpk : ¬p.1 = k := fun hk => h1 hk.symm
    rw [List.filter_cons, if_neg (by simp [hpk])]
    exact ih h2

theorem filter_insert_self {d : Dict α β} (h : d.NodupKeys) (k : α) (v : β) :
    (d.insert k v).filter (fun p => p.1 = k) = [(k, v)] := by
  induction d with
  | nil => simp [insert, List.filter_cons]
  | cons p rest ih =>
    unfold NodupKeys keys at h
    simp [List.nodup_cons] at h
    by_cases hp : p.1 = k
    · have : k ∉ keys rest := by
        rw [← hp]
        simpa [keys] using h.1
      simp [insert, hp, List.filter_cons, filter_key_eq_nil this]
    · simp [insert, hp, List.filter_cons,
        ih (by simpa [NodupKeys, keys] using h.2)]

end Dict

/-! ## Broadcast delivery lemmas -/

theorem roomSends_nil (message : Json) (excl : Option Int) :
    roomSends [] message excl = [] := rfl

theorem roomSends_cons (p : Int × Chan) (rest : Dict Int Chan)
    (message : Json) (excl : Option Int) :
    roomSends (p :: rest) message excl =
      (if shouldExclude excl p.1 then [] else trySend p.2 message)
        ++ roomSends rest message excl := by
  simp [roomSends]

theorem roomSends_payload {conns : Dict Int Chan} {message : Json}
    {excl : Option Int} :
    ∀ d ∈ roomSends conns message excl, d.2 = message := by
  induction conns with
  | nil => intro d hd; cases hd
  | cons p rest ih =>
    intro d hd
    rw [roomSends_cons] at hd
    rcases List.mem_append.1 hd with hd | hd
    · by_cases he : shouldExclude excl p.1
      · simp [he] at hd
      · simp [he, trySend, Chan.send_text] at hd
        by_cases hb : p.2.broken
        · simp [hb] at hd
        · simp [hb] at hd
          simp [hd]
    · exact ih d hd

theorem roomSends_filter_nil {conns : Dict Int Chan} {c : Chan}
    (message : Json) (excl : Option Int)
    (h : ∀ q ∈ conns, q.2 ≠ c) :
    (roomSends conns message excl).filter (fun d => d.1 = c) = [] := by
  induction conns with
  | nil => rfl
  | cons p rest ih =>
    rw [roomSends_cons, List.filter_append]
    have hrest : (roomSends rest message excl).filter (fun d => d.1 = c) = [] :=
      ih (fun q hq => h q (List.mem_cons_of_mem _ hq))
    have hp : p.2 ≠ c := h p (List.mem_cons_self _ _)
    by_cases he : shouldExclude excl p.1
    · simp [he, hrest]
    · simp only [he, if_false]
      rw [hrest]
      by_cases hb : p.2.broken
      · simp [trySend, Chan.send_text, hb]
      · simp [trySend, Chan.send_text, hb, hp]

theorem roomSends_count {conns : Dict Int Chan} {p : Int × Chan}
    (message : Json) (excl : Option Int)
    (hnd : (conns.map Prod.snd).Nodup) (hp : p ∈ conns) :
    ((roomSends conns message excl).filter (fun d => d.1 = p.2)).length
      = if shouldExclude excl p.1 || p.2.broken then 0 else 1 := by
  induction conns with
  | nil => cases hp
  | cons q rest ih =>
    rw [List.map_cons, List.nodup_cons] at hnd
    rw [roomSends_cons, List.filter_append, List.length_append]
    rcases List.mem_cons.1 hp with hq | hp'
    · -- p is the head entry
      have hrest : (roomSends rest message excl).filter (fun d => d.1 = p.2) = [] := by
        refine roomSends_filter_nil message excl (fun r hr hrc => ?_)
        have hmem : r.2 ∈ List.map Prod.snd rest := List.mem_map_of_mem Prod.snd hr
        rw [hrc, hq] at hmem
        exact hnd.1 hmem
      rw [hrest]
      subst hq
      by_cases he : shouldExclude excl p.1
      · simp [he]
      · by_cases hb : p.2.broken
        · simp [he, hb, trySend, Chan.send_text]
        · simp [he, hb, trySend, Chan.send_text]
    · -- p lies in the tail
      have hqc : q.2 ≠ p.2 := by
        intro hqp
        exact hnd.1 (hqp ▸ List.mem_map_of_mem Prod.snd hp')
      have hhead :
          ((if shouldExclude excl q.1 then [] else trySend q.2 message).filter
            (fun d => d.1 = p.2)).length = 0 := by
        by_cases he : shouldExclude excl q.1
        · simp [he]
        · by_cases hb : q.2.broken
          · simp [he, hb, trySend, Chan.send_text]
          · simp [he, hb, trySend, Chan.send_text, hqc]
      rw [hhead, ih hnd.2 hp', Nat.zero_add]

/-! ## Registry lemmas -/

theorem IntSet.discard_discard (s : List Int) (x : Int) :
    IntSet.discard (IntSet.discard s x) x = IntSet.discard s x := by
  induction s with
  | nil => rfl
  | cons a rest ih =>
    by_cases h : a = x
    · simp [IntSet.discard, List.filter_cons, h] at ih ⊢
    · simp [IntSet.discard, List.filter_cons, h] at ih ⊢

theorem disconnectRooms_idem (ac : Dict Int (Dict Int Chan)) (g u : Int) :
    ConnectionManager.disconnectRooms (ConnectionManager.disconnectRooms ac g u) g u
      = ConnectionManager.disconnectRooms ac g u := by
  cases hac : ac.get? g with
  | none => simp [ConnectionManager.disconnectRooms, hac]
  | some conns =>
    by_cases hE : (conns.pop u).isEmpty
    · simp [ConnectionManager.disconnectRooms, hac, hE, Dict.get?_pop_self]
    · simp [ConnectionManager.disconnectRooms, hac, hE, Dict.get?_insert_self,
        Dict.pop_pop_same, Dict.insert_insert_same]

theorem disconnectUserGroups_idem (ug : Dict Int (List Int)) (g u : Int) :
    ConnectionManager.disconnectUserGroups
        (ConnectionManager.disconnectUserGroups ug g u) g u
      = ConnectionManager.disconnectUserGroups ug g u := by
  cases hug : ug.get? u with
  | none => simp [ConnectionManager.disconnectUserGroups, hug]
  | some groups =>
    by_cases hE : (IntSet.discard groups g).isEmpty
    · simp [ConnectionManager.disconnectUserGroups, hug, hE, Dict.get?_pop_self]
    · simp [ConnectionManager.disconnectUserGroups, hug, hE, Dict.get?_insert_self,
        IntSet.discard_discard, Dict.insert_insert_same]

/-! ## Claim theorems -/

/-- C9: calling `disconnect(room, user)` twice in a row equals calling it
once — the second call, on the already-absent pair, is a no-op and cannot
error (the source uses the non-raising `dict.pop(·, None)` and
`set.discard`) — and when the disconnecting user was the room's only
member, the room's entry is pruned from the registry. -/
theorem disconnect_idempotent_and_prunes :
    (∀ (m : ConnectionManager) (group_id user_id : Int),
        (m.disconnect group_id user_id).disconnect group_id user_id
          = m.disconnect group_id user_id)
    ∧ (∀ (m : ConnectionManager) (group_id user_id : Int),
        m.get_online_users group_id = [user_id] →
          (m.disconnect group_id user_id).active_connections.get? group_id
            = none) := by
  constructor
  · intro m g u
    simp [ConnectionManager.disconnect, disconnectRooms_idem,
      disconnectUserGroups_idem]
  · intro m g u h
    unfold ConnectionManager.get_online_users at h
    cases hac : m.active_connections.get? g with
    | none => simp [hac] at h
    | some conns =>
      rw [hac] at h
      cases conns with
      | nil => simp [Dict.keys] at h
      | cons p rest =>
        simp [Dict.keys] at h
        obtain ⟨h1, h2⟩ := h
        subst h2
        have hpop : (Dict.pop (p :: ([] : Dict Int Chan)) u).isEmpty = true := by
          simp [Dict.pop, List.filter_cons, h1]
        show (ConnectionManager.disconnectRooms m.active_connections g u).get? g
          = none
        unfold ConnectionManager.disconnectRooms
        rw [hac]
        simp only [hpop, if_true]
        exact Dict.get?_pop_self _ _

/-- Witness for C9: in a registry where room 5 holds only user 7,
disconnecting user 7 removes room 5's entry. -/
theorem disconnect_idempotent_and_prunes_witness :
    ((⟨[(5, [(7, ⟨1, false⟩)])], [(7, [5])]⟩ : ConnectionManager).disconnect
        5 7).active_connections.get? 5 = none :=
  disconnect_idempotent_and_prunes.2
    ⟨[(5, [(7, ⟨1, false⟩)])], [(7, [5])]⟩ 5 7 (by decide)

/-- C8: a failed admission leaves the registry untouched — the transport
is closed before any registry mutation — and the close code
distinguishes an invalid or expired credential (4001) from a membership
or participation denial (4003), on both the group and DM endpoints. -/
theorem admission_atomic_and_close_codes :
    (∀ (m : ConnectionManager) (group_id : Int) (ws : Chan) (memb : Bool),
        groupAdmit m group_id none memb ws
          = (m, .rejected 4001 "Invalid or expired token"))
    ∧ (∀ (m : ConnectionManager) (group_id : Int) (ws : Chan) (u : UserRec),
        groupAdmit m group_id (some u) false ws
          = (m, .rejected 4003 "Not a member of this group"))
    ∧ (∀ (m : ConnectionManager) (conversation_id : Int) (ws : Chan) (memb : Bool),
        dmAdmit m conversation_id none memb ws
          = (m, .rejected 4001 "Invalid or expired token"))
    ∧ (∀ (m : ConnectionManager) (conversation_id : Int) (ws : Chan) (u : UserRec),
        dmAdmit m conversation_id (some u) false ws
          = (m, .rejected 4003 "Not a participant of this conversation"))
    ∧ (4001 : Int) ≠ 4003 := by
  refine ⟨fun m g ws memb => rfl, fun m g ws u => rfl,
    fun m c ws memb => rfl, fun m c ws u => rfl, by decide⟩

theorem atMostOne_conns_nodup {m : ConnectionManager} (hm : m.AtMostOne)
    (g : Int) : Dict.NodupKeys ((m.active_connections.get? g).getD []) := by
  cases hg : m.active_connections.get? g with
  | none => simp [Dict.NodupKeys, Dict.keys]
  | some conns => exact hm.2 _ (Dict.mem_of_get? hg)

theorem connect_preserves_at_most_one (m : ConnectionManager) (ws : Chan)
    (g u : Int) (hm : m.AtMostOne) : (m.connect ws g u).AtMostOne := by
  obtain ⟨hout, hin⟩ := hm
  constructor
  · exact hout.insert g _
  · intro p hp
    rcases Dict.mem_insert hp with hp | hp
    · rw [hp]
      exact (atMostOne_conns_nodup ⟨hout, hin⟩ g).insert u ws
    · exact hin p hp

theorem disconnectRooms_preserves_at_most_one (ac : Dict Int (Dict Int Chan))
    (g u : Int) (hout : ac.NodupKeys) (hin : ∀ p ∈ ac, Dict.NodupKeys p.2) :
    Dict.NodupKeys (ConnectionManager.disconnectRooms ac g u)
      ∧ ∀ p ∈ ConnectionManager.disconnectRooms ac g u, Dict.NodupKeys p.2 := by
  unfold ConnectionManager.disconnectRooms
  cases hac : ac.get? g with
  | none => exact ⟨hout, hin⟩
  | some conns =>
    by_cases hE : (conns.pop u).isEmpty
    · simp only [hE, if_true]
      exact ⟨hout.pop g, fun p hp => hin p (Dict.mem_of_mem_pop hp)⟩
    · simp only [hE, if_false]
      refine ⟨hout.insert g _, fun p hp => ?_⟩
      rcases Dict.mem_insert hp with hp | hp
      · rw [hp]
        exact (hin _ (Dict.mem_of_get? hac)).pop u
      · exact hin p hp

/-- C5: a second `connect` for the same `(user, room)` pair replaces the
first — exactly one registry entry for the pair remains, holding the new
channel, and `get_online_users` reports the user exactly once — and the
at-most-one-entry-per-pair property is an invariant preserved by both
mutating registry operations (`connect` and `disconnect`; the read
operations do not modify the registry). -/
theorem at_most_one_connection_per_pair :
    (∀ (m : ConnectionManager) (g u : Int) (a b : Chan), m.AtMostOne →
        ((((m.connect a g u).connect b g u).active_connections.get? g).getD
            []).filter (fun p => p.1 = u) = [(u, b)]
        ∧ (((m.connect a g u).connect b g u).get_online_users g).count u = 1)
    ∧ (∀ (m : ConnectionManager) (ws : Chan) (g u : Int), m.AtMostOne →
        (m.connect ws g u).AtMostOne)
    ∧ (∀ (m : ConnectionManager) (g u : Int), m.AtMostOne →
        (m.disconnect g u).AtMostOne) := by
  refine ⟨?_, connect_preserves_at_most_one, ?_⟩
  · intro m g u a b hm
    have h0 : Dict.NodupKeys ((m.active_connections.get? g).getD []) :=
      atMostOne_conns_nodup hm g
    have hget1 : (m.connect a g u).active_connections.get? g
        = some (((m.active_connections.get? g).getD []).insert u a) := by
      simp [ConnectionManager.connect, Dict.get?_insert_self]
    have hget2 : ((m.connect a g u).connect b g u).active_connections.get? g
        = some ((((m.active_connections.get? g).getD []).insert u a).insert
            u b) := by
      simp [ConnectionManager.connect, hget1, Dict.get?_insert_self]
    constructor
    · rw [hget2]
      exact Dict.filter_insert_self (h0.insert u a) u b
    · unfold ConnectionManager.get_online_users
      rw [hget2]
      exact List.count_eq_one_of_mem ((h0.insert u a).insert u b)
        (Dict.mem_keys_insert_self _ u b)
  · intro m g u hm
    exact disconnectRooms_preserves_at_most_one m.active_connections g u
      hm.1 hm.2

/-- Witness for C5: connecting user 2 to room 1 with one channel and then
another, starting from the empty registry, leaves a single entry holding
the second channel, and the user is listed online exactly once. -/
theorem at_most_one_connection_per_pair_witness :
    ((((ConnectionManager.empty.connect ⟨10, false⟩ 1 2).connect ⟨11, false⟩
          1 2).active_connections.get? 1).getD []).filter (fun p => p.1 = 2)
        = [(2, ⟨11, false⟩)]
    ∧ (((ConnectionManager.empty.connect ⟨10, false⟩ 1 2).connect ⟨11, false⟩
          1 2).get_online_users 1).count 2 = 1 :=
  at_most_one_connection_per_pair.1 ConnectionManager.empty 1 2
    ⟨10, false⟩ ⟨11, false⟩ (by decide)

/-- C7: `push_notification` enqueues the payload exactly once on every
queue currently registered for the user — the queue list keeps the same
queues in the same order, each with the payload appended once (full
fan-out) — and when the user has zero registered queues the call leaves
the store untouched (the payload is dropped) and cannot raise. -/
theorem push_notification_fanout_and_drop :
    (∀ (s : NotificationService) (user_id : Int) (nd : Json)
        (qs : List NQueue),
        s.sse_connections.get? user_id = some qs →
          (s.push_notification user_id nd).sse_connections.get? user_id
            = some (qs.map (fun q => ⟨q.qid, q.items ++ [nd]⟩)))
    ∧ (∀ (s : NotificationService) (user_id : Int) (nd : Json),
        s.sse_connections.get? user_id = none →
          s.push_notification user_id nd = s) := by
  constructor
  · intro s uid nd qs h
    simp [NotificationService.push_notification, h, Dict.get?_insert_self]
  · intro s uid nd h
    simp [NotificationService.push_notification, h]

/-- Witness for C7: with two queues registered for user 3, a push appends
the payload to both, exactly once each. -/
theorem push_notification_fanout_and_drop_witness :
    ((⟨[(3, [⟨0, []⟩, ⟨1, []⟩])]⟩ : NotificationService).push_notification 3
        (.str "ping")).sse_connections.get? 3
      = some [⟨0, [.str "ping"]⟩, ⟨1, [.str "ping"]⟩] :=
  push_notification_fanout_and_drop.1 _ 3 (.str "ping") [⟨0, []⟩, ⟨1, []⟩] rfl

/-- C6: per-recipient delivery failure is isolated.  For a room whose
members hold pairwise-distinct channels, every member with a working
channel receives the payload exactly once no matter which other channels
are broken, a member with a broken channel receives nothing, and the
broadcast returns its delivery trace normally — `broadcast_to_group` is a
total function because each fallible `send_text` is wrapped in
`try/except: pass`, so no error reaches the caller. -/
theorem broadcast_isolates_channel_failures
    (m : ConnectionManager) (g : Int) (payload : Json)
    (conns : Dict Int Chan)
    (hg : m.active_connections.get? g = some conns)
    (hch : (conns.map Prod.snd).Nodup) :
    (∀ p ∈ conns, p.2.broken = false →
        deliveredCount (m.broadcast_to_group g payload none) p.2 = 1)
    ∧ (∀ p ∈ conns, p.2.broken = true →
        deliveredCount (m.broadcast_to_group g payload none) p.2 = 0)
    ∧ (∀ d ∈ m.broadcast_to_group g payload none, d.2 = payload) := by
  have hb : m.broadcast_to_group g payload none
      = roomSends conns payload none := by
    simp [ConnectionManager.broadcast_to_group, hg]
  refine ⟨?_, ?_, ?_⟩
  · intro p hp hw
    rw [hb]
    have hcount := roomSends_count payload none hch hp
    simpa [deliveredCount, shouldExclude, hw] using hcount
  · intro p hp hw
    rw [hb]
    have hcount := roomSends_count payload none hch hp
    simpa [deliveredCount, shouldExclude, hw] using hcount
  · intro d hd
    rw [hb] at hd
    exact roomSends_payload d hd

/-- Witness for C6: room 7 has users 1, 2, 3; user 2's channel is broken;
users 1 and 3 still each receive exactly one copy and user 2 none. -/
theorem broadcast_isolates_channel_failures_witness :
    (∀ p ∈ ([(1, ⟨1, false⟩), (2, ⟨2, true⟩), (3, ⟨3, false⟩)] :
        Dict Int Chan), p.2.broken = false →
        deliveredCount
          ((⟨[(7, [(1, ⟨1, false⟩), (2, ⟨2, true⟩), (3, ⟨3, false⟩)])],
              []⟩ : ConnectionManager).broadcast_to_group 7 (.str "hi")
            none) p.2 = 1)
    ∧ (∀ p ∈ ([(1, ⟨1, false⟩), (2, ⟨2, true⟩), (3, ⟨3, false⟩)] :
        Dict Int Chan), p.2.broken = true →
        deliveredCount
          ((⟨[(7, [(1, ⟨1, false⟩), (2, ⟨2, true⟩), (3, ⟨3, false⟩)])],
              []⟩ : ConnectionManager).broadcast_to_group 7 (.str "hi")
            none) p.2 = 0)
    ∧ (∀ d ∈ (⟨[(7, [(1, ⟨1, false⟩), (2, ⟨2, true⟩), (3, ⟨3, false⟩)])],
          []⟩ : ConnectionManager).broadcast_to_group 7 (.str "hi") none,
        d.2 = .str "hi") :=
  broadcast_isolates_channel_failures _ 7 (.str "hi") _ rfl (by decide)

/-- Counterexample for C3: the exclusion check is
`if exclude_user_id and user_id == exclude_user_id`, and Python treats
`0` as falsy, so the member with user id 0 is *not* excluded: with room 1
holding members 0 and 1, `broadcast(1, payload, exclude_user_id=0)`
still delivers a copy to member 0, where the claim requires zero. -/
theorem broadcast_exclude_zero_counterexample :
    deliveredCount
      ((⟨[(1, [(0, ⟨20, false⟩), (1, ⟨21, false⟩)])], []⟩ :
          ConnectionManager).broadcast_to_group 1 (.str "p") (some 0))
      ⟨20, false⟩ ≠ 0 := by decide

/-- C3 amended: broadcast exclusion holds for every member whose user id
is nonzero (a falsy id 0 is treated like "no exclusion" by the source's
truthiness check): for members with pairwise-distinct channels,
`broadcast(R, payload, exclude_user_id=A)` with `A ≠ 0` delivers exactly
one copy to each other member with a working channel and zero copies
to A. -/
theorem broadcast_excludes_nonzero_member
    (m : ConnectionManager) (g A : Int) (payload : Json)
    (conns : Dict Int Chan)
    (hg : m.active_connections.get? g = some conns)
    (hA : A ≠ 0)
    (hch : (conns.map Prod.snd).Nodup) :
    (∀ p ∈ conns, p.1 ≠ A → p.2.broken = false →
        deliveredCount (m.broadcast_to_group g payload (some A)) p.2 = 1)
    ∧ (∀ p ∈ conns, p.1 = A →
        deliveredCount (m.broadcast_to_group g payload (some A)) p.2 = 0)
    ∧ (∀ d ∈ m.broadcast_to_group g payload (some A), d.2 = payload) := by
  have hb : m.broadcast_to_group g payload (some A)
      = roomSends conns payload (some A) := by
    simp [ConnectionManager.broadcast_to_group, hg]
  refine ⟨?_, ?_, ?_⟩
  · intro p hp hne hw
    rw [hb]
    have hse : shouldExclude (some A) p.1 = false := by
      simp [shouldExclude, hne]
    have hcount := roomSends_count payload (some A) hch hp
    rw [hse] at hcount
    simpa [deliveredCount, hw] using hcount
  · intro p hp heq
    rw [hb]
    have hse : shouldExclude (some A) p.1 = true := by
      simp [shouldExclude, hA, heq]
    have hcount := roomSends_count payload (some A) hch hp
    rw [hse] at hcount
    simpa [deliveredCount] using hcount
  · intro d hd
    rw [hb] at hd
    exact roomSends_payload d hd

/-- Witness for the amended C3: room 9 holds users 1, 2, 3 on working
distinct channels; excluding user 1 delivers one copy each to users 2
and 3 and none to user 1. -/
theorem broadcast_excludes_nonzero_member_witness :
    (∀ p ∈ ([(1, ⟨1, false⟩), (2, ⟨2, false⟩), (3, ⟨3, false⟩)] :
        Dict Int Chan), p.1 ≠ 1 → p.2.broken = false →
        deliveredCount
          ((⟨[(9, [(1, ⟨1, false⟩), (2, ⟨2, false⟩), (3, ⟨3, false⟩)])],
              []⟩ : ConnectionManager).broadcast_to_group 9 (.str "m")
            (some 1)) p.2 = 1)
    ∧ (∀ p ∈ ([(1, ⟨1, false⟩), (2, ⟨2, false⟩), (3, ⟨3, false⟩)] :
        Dict Int Chan), p.1 = 1 →
        deliveredCount
          ((⟨[(9, [(1, ⟨1, false⟩), (2, ⟨2, false⟩), (3, ⟨3, false⟩)])],
              []⟩ : ConnectionManager).broadcast_to_group 9 (.str "m")
            (some 1)) p.2 = 0)
    ∧ (∀ d ∈ (⟨[(9, [(1, ⟨1, false⟩), (2, ⟨2, false⟩), (3, ⟨3, false⟩)])],
          []⟩ : ConnectionManager).broadcast_to_group 9 (.str "m") (some 1),
        d.2 = .str "m") :=
  broadcast_excludes_nonzero_member _ 9 1 (.str "m") _ rfl (by decide)
    (by decide)

/-! ## Handler step lemmas -/

theorem connect_get?_self (m : ConnectionManager) (ws : Chan) (g u : Int) :
    (m.connect ws g u).active_connections.get? g
      = some (((m.active_connections.get? g).getD []).insert u ws) := by
  simp [ConnectionManager.connect, Dict.get?_insert_self]

theorem groupFrameStep_message_eq (m : ConnectionManager) (gid uid : Int)
    (uname : String) (upp : Json) (ws : Chan) (fresh : Option FreshUser)
    (sm : SavedMessage) (fields : List (String × Json)) (c : String)
    (hty : ((fields.lookup "type").getD (.str "message")).eqStr "message"
      = true)
    (hco : Json.pyStrip ((fields.lookup "content").getD (.str "")) = .ok c) :
    groupFrameStep m gid uid uname upp ws fresh sm (some (.obj fields))
      = if c == "" then .next [] []
        else .next
          (m.broadcast_to_group gid
            (.obj [("type", .str "message"), ("content", .str c),
                   ("user_id", .num uid),
                   ("username", .str (freshUsername fresh uname)),
                   ("profile_picture", freshProfilePicture fresh upp),
                   ("message_id", .num sm.id),
                   ("timestamp", .str sm.created_at_iso)]) none)
          [⟨gid, uid, c⟩] := by
  unfold groupFrameStep
  simp only [Json.pyGet, hty, if_true, hco]

theorem dmFrameStep_message_skip (m : ConnectionManager) (cid uid : Int)
    (uname : String) (ws : Chan) (fresh : Option FreshUser)
    (sm : SavedMessage) (signed_url : String → String)
    (fields : List (String × Json))
    (hty : ((fields.lookup "type").getD (.str "message")).eqStr "message"
      = true)
    (hco : Json.pyStrip ((fields.lookup "content").getD (.str "")) = .ok "")
    (himg : ((fields.lookup "image_url").getD .null).truthy = false) :
    dmFrameStep m cid uid uname ws fresh sm signed_url (some (.obj fields))
      = .next [] [] := by
  unfold dmFrameStep
  simp only [Json.pyGet, hty, if_true, hco, himg]
  simp

/-- Counterexample for C1: the message broadcast in the group handler
passes no `exclude_user_id` (unlike the `typing` branch), so when room 42
holds users 1, 2, 3 and user 1 sends `{type:"message", content:"hi"}`,
the sender's own channel also receives a copy — the claim requires it to
receive zero. -/
theorem group_message_sender_receives_counterexample :
    deliveredCount
      ((groupFrameStep
          ⟨[(42, [(1, ⟨1, false⟩), (2, ⟨2, false⟩), (3, ⟨3, false⟩)])], []⟩
          42 1 "alice" .null ⟨1, false⟩ none ⟨501, "T"⟩
          (some (.obj [("type", .str "message"),
                       ("content", .str "hi")]))).deliveries)
      ⟨1, false⟩ ≠ 0 := by decide

/-- C1 amended: group chat message round trip, except that the sender is
not excluded: when a member of the room sends
`{type:"message", content:c}` with `c` already stripped and non-empty,
the message is persisted once, and every connected member with a working
channel — the sender included — receives exactly one copy of the
outgoing payload carrying the content, sender id, persisted message id
and timestamp. -/
theorem group_message_round_trip
    (m : ConnectionManager) (group_id user_id : Int)
    (user_username : String) (user_profile_picture : Json) (ws : Chan)
    (fresh_user : Option FreshUser) (saved_message : SavedMessage)
    (content : String) (conns : Dict Int Chan)
    (hg : m.active_connections.get? group_id = some conns)
    (hch : (conns.map Prod.snd).Nodup)
    (htrim : pyStripStr content = content) (hne : content ≠ "") :
    (∀ p ∈ conns, p.2.broken = false →
        deliveredCount
          (groupFrameStep m group_id user_id user_username
              user_profile_picture ws fresh_user saved_message
              (some (.obj [("type", .str "message"),
                           ("content", .str content)]))).deliveries
          p.2 = 1)
    ∧ (∀ d ∈ (groupFrameStep m group_id user_id user_username
          user_profile_picture ws fresh_user saved_message
          (some (.obj [("type", .str "message"),
                       ("content", .str content)]))).deliveries,
        d.2 = .obj [("type", .str "message"), ("content", .str content),
                    ("user_id", .num user_id),
                    ("username", .str (freshUsername fresh_user
                      user_username)),
                    ("profile_picture", freshProfilePicture fresh_user
                      user_profile_picture),
                    ("message_id", .num saved_message.id),
                    ("timestamp", .str saved_message.created_at_iso)])
    ∧ (groupFrameStep m group_id user_id user_username
          user_profile_picture ws fresh_user saved_message
          (some (.obj [("type", .str "message"),
                       ("content", .str content)]))).persisted
        = [⟨group_id, user_id, content⟩] := by
  have hco : Json.pyStrip
      (((([("type", Json.str "message"),
           ("content", Json.str content)] : List (String × Json)).lookup
          "content")).getD (.str "")) = .ok content := by
    show Except.ok (pyStripStr content) = Except.ok content
    rw [htrim]
  have hstep := groupFrameStep_message_eq m group_id user_id user_username
    user_profile_picture ws fresh_user saved_message
    [("type", .str "message"), ("content", .str content)] content rfl hco
  rw [if_neg (by simp [hne])] at hstep
  have hbr : m.broadcast_to_group group_id
      (.obj [("type", .str "message"), ("content", .str content),
             ("user_id", .num user_id),
             ("username", .str (freshUsername fresh_user user_username)),
             ("profile_picture", freshProfilePicture fresh_user
               user_profile_picture),
             ("message_id", .num saved_message.id),
             ("timestamp", .str saved_message.created_at_iso)]) none
      = roomSends conns
          (.obj [("type", .str "message"), ("content", .str content),
                 ("user_id", .num user_id),
                 ("username", .str (freshUsername fresh_user
                   user_username)),
                 ("profile_picture", freshProfilePicture fresh_user
                   user_profile_picture),
                 ("message_id", .num saved_message.id),
                 ("timestamp", .str saved_message.created_at_iso)]) none := by
    simp [ConnectionManager.broadcast_to_group, hg]
  refine ⟨?_, ?_, ?_⟩
  · intro p hp hw
    rw [hstep]
    simp only [StepResult.deliveries, hbr]
    have hcount := roomSends_count
      (Json.obj [("type", Json.str "message"),
        ("content", Json.str content), ("user_id", Json.num user_id),
        ("username", Json.str (freshUsername fresh_user user_username)),
        ("profile_picture",
          freshProfilePicture fresh_user user_profile_picture),
        ("message_id", Json.num saved_message.id),
        ("timestamp", Json.str saved_message.created_at_iso)])
      none hch hp
    simpa [deliveredCount, shouldExclude, hw] using hcount
  · intro d hd
    rw [hstep] at hd
    simp only [StepResult.deliveries, hbr] at hd
    exact roomSends_payload d hd
  · rw [hstep]
    rfl

/-- Witness for the amended C1: room 42 holds users 1, 2, 3 on working
channels; user 1 sends "hi", persistence returns id 501 and timestamp T;
all three members (sender included) receive exactly one copy of the
outgoing payload, and exactly one save call is made. -/
theorem group_message_round_trip_witness :
    (∀ p ∈ ([(1, ⟨1, false⟩), (2, ⟨2, false⟩), (3, ⟨3, false⟩)] :
        Dict Int Chan), p.2.broken = false →
        deliveredCount
          (groupFrameStep
              ⟨[(42, [(1, ⟨1, false⟩), (2, ⟨2, false⟩), (3, ⟨3, false⟩)])],
               []⟩ 42 1 "alice" .null ⟨1, false⟩ none ⟨501, "T"⟩
              (some (.obj [("type", .str "message"),
                           ("content", .str "hi")]))).deliveries
          p.2 = 1)
    ∧ (∀ d ∈ (groupFrameStep
          ⟨[(42, [(1, ⟨1, false⟩), (2, ⟨2, false⟩), (3, ⟨3, false⟩)])],
           []⟩ 42 1 "alice" .null ⟨1, false⟩ none ⟨501, "T"⟩
          (some (.obj [("type", .str "message"),
                       ("content", .str "hi")]))).deliveries,
        d.2 = .obj [("type", .str "message"), ("content", .str "hi"),
                    ("user_id", .num 1),
                    ("username", .str (freshUsername none "alice")),
                    ("profile_picture", freshProfilePicture none .null),
                    ("message_id", .num 501),
                    ("timestamp", .str "T")])
    ∧ (groupFrameStep
          ⟨[(42, [(1, ⟨1, false⟩), (2, ⟨2, false⟩), (3, ⟨3, false⟩)])],
           []⟩ 42 1 "alice" .null ⟨1, false⟩ none ⟨501, "T"⟩
          (some (.obj [("type", .str "message"),
                       ("content", .str "hi")]))).persisted
        = [⟨42, 1, "hi"⟩] :=
  group_message_round_trip
    ⟨[(42, [(1, ⟨1, false⟩), (2, ⟨2, false⟩), (3, ⟨3, false⟩)])], []⟩
    42 1 "alice" .null ⟨1, false⟩ none ⟨501, "T"⟩ "hi" _ rfl (by decide)
    (by decide) (by decide)

/-- Counterexample for C2: the `online_users` snapshot is taken *after*
`manager.connect` registers the joiner, so when user 4 joins room 42
where users 1–3 are connected, the snapshot is `[1, 2, 3, 4]` — it does
include the joining user, where the claim requires it not to. -/
theorem join_snapshot_includes_joiner_counterexample :
    (groupJoin
        ⟨[(42, [(1, ⟨1, false⟩), (2, ⟨2, false⟩), (3, ⟨3, false⟩)])], []⟩
        42 4 "dave" .null ⟨4, false⟩ []).online_user_ids = [1, 2, 3, 4]
    ∧ 4 ∈ (groupJoin
        ⟨[(42, [(1, ⟨1, false⟩), (2, ⟨2, false⟩), (3, ⟨3, false⟩)])], []⟩
        42 4 "dave" .null ⟨4, false⟩ []).online_user_ids := by decide

/-- C2 amended: presence on join, except that the roster snapshot is
taken after the joiner is registered and therefore lists the previously
connected users *plus the joiner itself*: when a new user (nonzero id,
not already in the room) joins, each previously connected member with a
working channel receives exactly one `user_joined` event for the joiner,
the joiner receives none of them, the snapshot ids are the previous
members in registration order followed by the joiner, and the joiner's
working channel receives the `online_users` message exactly once. -/
theorem presence_roster_on_join
    (m : ConnectionManager) (group_id user_id : Int)
    (user_username : String) (user_profile_picture : Json) (ws : Chan)
    (users_table : Dict Int UserInfo) (conns : Dict Int Chan)
    (hg : m.active_connections.get? group_id = some conns)
    (hnew : user_id ∉ conns.keys)
    (hid : user_id ≠ 0)
    (hch : (conns.map Prod.snd ++ [ws]).Nodup) :
    (groupJoin m group_id user_id user_username user_profile_picture ws
        users_table).online_user_ids = conns.keys ++ [user_id]
    ∧ (∀ p ∈ conns, p.2.broken = false →
        deliveredCount (groupJoin m group_id user_id user_username
            user_profile_picture ws users_table).joined_deliveries p.2 = 1)
    ∧ deliveredCount (groupJoin m group_id user_id user_username
        user_profile_picture ws users_table).joined_deliveries ws = 0
    ∧ (∀ d ∈ (groupJoin m group_id user_id user_username
          user_profile_picture ws users_table).joined_deliveries,
        d.2 = .obj [("type", .str "user_joined"),
                    ("user_id", .num user_id),
                    ("username", .str user_username),
                    ("profile_picture", user_profile_picture)])
    ∧ (ws.broken = false →
        (groupJoin m group_id user_id user_username user_profile_picture
            ws users_table).roster_deliveries.length = 1) := by
  have hins : conns.insert user_id ws = conns ++ [(user_id, ws)] :=
    Dict.insert_of_not_mem_keys ws hnew
  have hget1 : (m.connect ws group_id user_id).active_connections.get?
      group_id = some (conns ++ [(user_id, ws)]) := by
    rw [connect_get?_self, hg, Option.getD_some, hins]
  have hsnd : ((conns ++ [(user_id, ws)]).map Prod.snd).Nodup := by
    simpa using hch
  have hjoined : (groupJoin m group_id user_id user_username
      user_profile_picture ws users_table).joined_deliveries
      = roomSends (conns ++ [(user_id, ws)])
          (.obj [("type", .str "user_joined"),
                 ("user_id", .num user_id),
                 ("username", .str user_username),
                 ("profile_picture", user_profile_picture)])
          (some user_id) := by
    simp [groupJoin, ConnectionManager.broadcast_to_group, hget1]
  refine ⟨?_, ?_, ?_, ?_, ?_⟩
  · show (ConnectionManager.get_online_users _ group_id) = _
    unfold ConnectionManager.get_online_users
    rw [hget1]
    simp [Dict.keys]
  · intro p hp hw
    rw [hjoined]
    have hmem : p ∈ conns ++ [(user_id, ws)] :=
      List.mem_append_left _ hp
    have hexcl : shouldExclude (some user_id) p.1 = false := by
      have : p.1 ≠ user_id := fun he =>
        hnew (he ▸ List.mem_map_of_mem Prod.fst hp)
      simp [shouldExclude, this]
    have hcount := roomSends_count
      (.obj [("type", .str "user_joined"), ("user_id", .num user_id),
             ("username", .str user_username),
             ("profile_picture", user_profile_picture)])
      (some user_id) hsnd hmem
    rw [hexcl] at hcount
    simpa [deliveredCount, hw] using hcount
  · rw [hjoined]
    have hmem : (user_id, ws) ∈ conns ++ [(user_id, ws)] :=
      List.mem_append_right _ (List.mem_singleton.mpr rfl)
    have hexcl : shouldExclude (some user_id) user_id = true := by
      simp [shouldExclude, hid]
    have hcount := roomSends_count
      (.obj [("type", .str "user_joined"), ("user_id", .num user_id),
             ("username", .str user_username),
             ("profile_picture", user_profile_picture)])
      (some user_id) hsnd hmem
    rw [hexcl] at hcount
    simpa [deliveredCount] using hcount
  · intro d hd
    rw [hjoined] at hd
    exact roomSends_payload d hd
  · intro hw
    simp [groupJoin, ConnectionManager.send_personal_message, trySend,
      Chan.send_text, hw]

/-- Witness for the amended C2: user 4 joins room 42 where users 1–3 are
connected on working channels; users 1–3 each receive one `user_joined`,
user 4 none of them, the snapshot is `[1, 2, 3]` plus user 4, and user 4
receives the roster message once. -/
theorem presence_roster_on_join_witness :
    (groupJoin
        ⟨[(42, [(1, ⟨1, false⟩), (2, ⟨2, false⟩), (3, ⟨3, false⟩)])], []⟩
        42 4 "dave" .null ⟨4, false⟩ []).online_user_ids = [1, 2, 3, 4]
    ∧ (∀ p ∈ ([(1, ⟨1, false⟩), (2, ⟨2, false⟩), (3, ⟨3, false⟩)] :
        Dict Int Chan), p.2.broken = false →
        deliveredCount (groupJoin
            ⟨[(42, [(1, ⟨1, false⟩), (2, ⟨2, false⟩), (3, ⟨3, false⟩)])],
             []⟩ 42 4 "dave" .null ⟨4, false⟩ []).joined_deliveries
          p.2 = 1)
    ∧ deliveredCount (groupJoin
        ⟨[(42, [(1, ⟨1, false⟩), (2, ⟨2, false⟩), (3, ⟨3, false⟩)])], []⟩
        42 4 "dave" .null ⟨4, false⟩ []).joined_deliveries ⟨4, false⟩ = 0
    ∧ (∀ d ∈ (groupJoin
          ⟨[(42, [(1, ⟨1, false⟩), (2, ⟨2, false⟩), (3, ⟨3, false⟩)])],
           []⟩ 42 4 "dave" .null ⟨4, false⟩ []).joined_deliveries,
        d.2 = .obj [("type", .str "user_joined"), ("user_id", .num 4),
                    ("username", .str "dave"),
                    ("profile_picture", .null)])
    ∧ ((⟨4, false⟩ : Chan).broken = false →
        (groupJoin
            ⟨[(42, [(1, ⟨1, false⟩), (2, ⟨2, false⟩), (3, ⟨3, false⟩)])],
             []⟩ 42 4 "dave" .null ⟨4, false⟩ []).roster_deliveries.length
          = 1) :=
  presence_roster_on_join
    ⟨[(42, [(1, ⟨1, false⟩), (2, ⟨2, false⟩), (3, ⟨3, false⟩)])], []⟩
    42 4 "dave" .null ⟨4, false⟩ [] _ rfl (by decide) (by decide)
    (by decide)

/-- Counterexample for C4: only `json.JSONDecodeError` is caught inside
the receive loop.  A frame that *is* valid JSON but not an object — here
the JSON array `[]` — reaches `message_data.get("type", "message")`,
which raises an uncaught `AttributeError`: the iteration crashes (and
with it the connection) instead of skipping the frame. -/
theorem json_array_frame_crashes_counterexample :
    groupFrameStep (⟨[], []⟩ : ConnectionManager) 1 1 "u" .null ⟨1, false⟩
        none ⟨1, "T"⟩ (some (.arr [])) = .crash .attributeError := rfl

/-- C4 amended: an inbound frame that fails JSON parsing is skipped —
nothing is sent or persisted and the receive loop continues — on both
the group and the DM handlers; but a frame that parses as JSON without
being an object (or whose `content`/`image_url` fields are ill-typed)
raises an uncaught error that terminates the connection. -/
theorem invalid_json_frames_skipped :
    (∀ (m : ConnectionManager) (gid uid : Int) (uname : String)
        (upp : Json) (ws : Chan) (fresh : Option FreshUser)
        (sm : SavedMessage),
        groupFrameStep m gid uid uname upp ws fresh sm none = .next [] [])
    ∧ (∀ (m : ConnectionManager) (cid uid : Int) (uname : String)
        (ws : Chan) (fresh : Option FreshUser) (sm : SavedMessage)
        (signed_url : String → String),
        dmFrameStep m cid uid uname ws fresh sm signed_url none
          = .next [] []) :=
  ⟨fun _ _ _ _ _ _ _ _ => rfl, fun _ _ _ _ _ _ _ _ => rfl⟩

/-- C10: an inbound `message` frame whose content is missing, empty or
whitespace-only is dropped before the persistence call on the group
handler unconditionally, and on the DM handler whenever the frame also
carries no truthy `image_url`: nothing is saved, nothing is broadcast,
and the iteration continues. -/
theorem empty_content_frames_dropped
    (m md : ConnectionManager) (gid cid uid uid2 : Int)
    (uname uname2 : String) (upp : Json) (ws ws2 : Chan)
    (fresh fresh2 : Option FreshUser) (sm sm2 : SavedMessage)
    (signed_url : String → String) (fields : List (String × Json))
    (hty : ((fields.lookup "type").getD (.str "message")).eqStr "message"
      = true)
    (hco : Json.pyStrip ((fields.lookup "content").getD (.str "")) = .ok "") :
    groupFrameStep m gid uid uname upp ws fresh sm (some (.obj fields))
      = .next [] []
    ∧ (((fields.lookup "image_url").getD .null).truthy = false →
        dmFrameStep md cid uid2 uname2 ws2 fresh2 sm2 signed_url
          (some (.obj fields)) = .next [] []) := by
  constructor
  · rw [groupFrameStep_message_eq m gid uid uname upp ws fresh sm fields ""
      hty hco]
    simp
  · intro himg
    exact dmFrameStep_message_skip md cid uid2 uname2 ws2 fresh2 sm2
      signed_url fields hty hco himg

/-- Witness for C10: a `message` frame with whitespace-only content and
no `image_url` is dropped by both handlers. -/
theorem empty_content_frames_dropped_witness :
    groupFrameStep (⟨[], []⟩ : ConnectionManager) 1 2 "u" .null ⟨1, false⟩
        none ⟨9, "T"⟩
        (some (.obj [("type", .str "message"), ("content", .str "   ")]))
      = .next [] []
    ∧ dmFrameStep (⟨[], []⟩ : ConnectionManager) 3 4 "v" ⟨2, false⟩
        none ⟨9, "T"⟩ (fun s => s)
        (some (.obj [("type", .str "message"), ("content", .str "   ")]))
      = .next [] [] :=
  ⟨(empty_content_frames_dropped ⟨[], []⟩ ⟨[], []⟩ 1 3 2 4 "u" "v" .null
      ⟨1, false⟩ ⟨2, false⟩ none none ⟨9, "T"⟩ ⟨9, "T"⟩ (fun s => s)
      [("type", .str "message"), ("content", .str "   ")]
      (by decide) rfl).1,
   (empty_content_frames_dropped ⟨[], []⟩ ⟨[], []⟩ 1 3 2 4 "u" "v" .null
      ⟨1, false⟩ ⟨2, false⟩ none none ⟨9, "T"⟩ ⟨9, "T"⟩ (fun s => s)
      [("type", .str "message"), ("content", .str "   ")]
      (by decide) rfl).2 (by decide)⟩
